import Mathlib

/-!
Verification of the card-bot economy core (`index.js`): per-user session
records, cooldown gating, pick resolution, positional trash, two-party
trades, and the image composition caches.  Each definition is a shallow
embedding of the corresponding JavaScript function; timestamps are integer
milliseconds, JS `undefined` is `Option.none`, and the JS `a || b` fallback
on strings/numbers is modelled with its falsiness on `""` and `0`.
-/

namespace PomoGG

/-- A card definition loaded from the catalog (`loadCardsFromSupabase`). -/
structure Card where
  id : String
  name : String
  rarity : String
  set : String
  imageUrl : String
deriving DecidableEq, Repr

/-- An inventory entry.  The source pushes objects of two shapes
(snake_case from the text commands and the trade handler, camelCase from
the slash commands), so every field is optional; absent keys are `none`. -/
structure Entry where
  card_id : Option String
  cardId : Option String
  obtained_at : Option Int
  obtainedAt : Option Int
  instance_id : Option String
  instanceId : Option String
deriving DecidableEq, Repr

/-- JS `a || b` on string-valued fields: `undefined`, `null` and `""` are
falsy, everything else is returned as-is. -/
def orFalsyStr (a b : Option String) : Option String :=
  match a with
  | some s => if s = "" then b else some s
  | none => b

/-- The accessor `entry.instance_id || entry.instanceId` used by the
trade and view handlers. -/
def entryInstanceId (e : Entry) : Option String :=
  orFalsyStr e.instance_id e.instanceId

/-- The accessor `entry.card_id || entry.cardId` used to read the card id
of a dual-shaped entry. -/
def entryCardId (e : Entry) : Option String :=
  orFalsyStr e.card_id e.cardId

/-- The per-user in-memory session stored in `userData` (`getUserData`). -/
structure Session where
  inventory : List Entry
  lastDraw : Int
  lastPack : Int
  lastPick : Int
  pickChoices : List Card
deriving DecidableEq, Repr

/-- Formatter `msToNice`: ceiling-round a millisecond duration to whole seconds
(`Math.ceil(ms / 1000)`, which for a natural `ms` is `(ms + 999) / 1000`)
and format it as `Xm Ys` when at least one full minute, else `Ys`. -/
def msToNice (ms : Nat) : String :=
  let totalSeconds := (ms + 999) / 1000
  let minutes := totalSeconds / 60
  let seconds := totalSeconds % 60
  if minutes > 0 then toString minutes ++ "m " ++ toString seconds ++ "s"
  else toString seconds ++ "s"

/-- The cooldown gate shared by the draw, pack and pick handlers:
`elapsed = now - last`; if `elapsed < cooldown` the action is denied and
the remaining wait `cooldown - elapsed` is reported (`some remaining`),
otherwise the action proceeds (`none`). -/
def cooldownCheck (now last cooldown : Int) : Option Int :=
  let elapsed := now - last
  if elapsed < cooldown then some (cooldown - elapsed) else none

/-- Draw cooldown constant: 0 in test mode, else 15 minutes. -/
def DRAW_COOLDOWN (testMode : Bool) : Int :=
  if testMode then 0 else 15 * 60 * 1000

/-- Pack cooldown constant: 0 in test mode, else 10 minutes. -/
def PACK_COOLDOWN (testMode : Bool) : Int :=
  if testMode then 0 else 10 * 60 * 1000

/-- Pick cooldown constant: 0 in test mode, else 30 minutes. -/
def PICK_COOLDOWN (testMode : Bool) : Int :=
  if testMode then 0 else 30 * 60 * 1000

/-- Outcome of a `btn_pick_N` button press. -/
inductive PickOutcome where
  | noActiveSession
  | invalidChoice
  | picked (c : Card)
deriving DecidableEq, Repr

/-- The `btn_pick_N` handler: if `pickChoices` is empty the session is
inactive; if slot `index` has no choice the press is an invalid choice;
otherwise push `{ cardId, obtainedAt: now, instance_id }` onto the
inventory and clear `pickChoices`. -/
def btnPick (data : Session) (index : Nat) (now : Int) (instanceId : String) :
    PickOutcome × Session :=
  if data.pickChoices.length = 0 then (.noActiveSession, data)
  else
    match data.pickChoices[index]? with
    | none => (.invalidChoice, data)
    | some card =>
      let newEntry : Entry :=
        { card_id := none, cardId := some card.id, obtained_at := none,
          obtainedAt := some now, instance_id := some instanceId,
          instanceId := none }
      (.picked card,
        { data with inventory := data.inventory ++ [newEntry], pickChoices := [] })

/-- Outcome of the `/trash` command. -/
inductive TrashOutcome where
  | invalidIndex
  | trashed (e : Entry)
deriving DecidableEq, Repr

/-- The `/trash` handler: reject an index outside `[0, length)` without
mutation; otherwise splice the entry out of the inventory and issue a
durable delete keyed on `(user_id, removed.cardId, removed.obtainedAt)`. -/
def trash (data : Session) (index : Int) (userId : String) :
    TrashOutcome × Session × Option (String × Option String × Option Int) :=
  if h : index < 0 ∨ (data.inventory.length : Int) ≤ index then
    (.invalidIndex, data, none)
  else
    let i : Nat := index.toNat
    let removed := data.inventory.get ⟨i, by omega⟩
    (.trashed removed,
      { data with inventory := data.inventory.eraseIdx i },
      some (userId, removed.cardId, removed.obtainedAt))

/-- Number of inventory entries whose effective instance id
(`entry.instance_id || entry.instanceId`) equals `target`. -/
def countByInstanceId (inv : List Entry) (target : String) : Nat :=
  (inv.filter (fun e => entryInstanceId e == some target)).length

/-- Model of `findIndex` on the instance-id accessor followed by reading and
splicing out the found entry: returns the first entry whose effective
instance id is `target` together with the inventory without it, or `none`
when no entry matches (`findIndex` returned `-1`). -/
def removeFirstByInstanceId (inv : List Entry) (target : String) :
    Option (Entry × List Entry) :=
  match inv with
  | [] => none
  | e :: rest =>
    if entryInstanceId e == some target then some (e, rest)
    else
      match removeFirstByInstanceId rest target with
      | none => none
      | some (r, l) => some (r, e :: l)

/-- The action encoded in a `trade_accept_…` / `trade_decline_…` button. -/
inductive TradeAction where
  | accept
  | decline
deriving DecidableEq, Repr

/-- Outcome of a trade-button press. -/
inductive TradeResult where
  | notForYou
  | declined
  | aborted
  | completed
deriving DecidableEq, Repr

/-- The trade-button handler.  A presser other than the designated
receiver is turned away.  Decline ends the offer without mutation.  Accept
re-validates that `instanceId` is still in the sender's inventory; if
absent the trade aborts with no mutation, otherwise the entry is spliced
out of the sender's inventory and a fresh entry with the same card id and
instance id but `obtained_at = now` is pushed onto the receiver's. -/
def tradeResolve (action : TradeAction)
    (senderId receiverId instanceId actorId : String)
    (senderData receiverData : Session) (now : Int) :
    TradeResult × Session × Session :=
  if actorId ≠ receiverId then (.notForYou, senderData, receiverData)
  else
    match action with
    | .decline => (.declined, senderData, receiverData)
    | .accept =>
      match removeFirstByInstanceId senderData.inventory instanceId with
      | none => (.aborted, senderData, receiverData)
      | some (cardEntry, rest) =>
        let cardId := entryCardId cardEntry
        let newEntry : Entry :=
          { card_id := cardId, cardId := cardId, obtained_at := some now,
            obtainedAt := some now, instance_id := some instanceId,
            instanceId := none }
        (.completed,
          { senderData with inventory := rest },
          { receiverData with inventory := receiverData.inventory ++ [newEntry] })

/-- A row of the durable `users` table as read during session load. -/
structure UserRow where
  last_draw : Int
  last_pack : Int
  last_pick : Int
deriving DecidableEq, Repr

/-- How the durable read inside `getUserData` went: the whole `try` block
threw, or it completed with an optional user row (`none` = user absent,
PGRST116) and an optional list of inventory rows (`none` = failed
inventory query, whose `data` is `null`). -/
inductive LoadOutcome where
  | threw
  | completed (user : Option UserRow) (inventoryRows : Option (List Entry))
deriving DecidableEq, Repr

/-- JS `a || b` on numeric fields: `undefined`, `null` and `0` are falsy. -/
def orFalsyInt (a : Option Int) (b : Int) : Int :=
  match a with
  | some x => if x = 0 then b else x
  | none => b

/-- The session object `getUserData` builds on a cache miss: a thrown
durable read degrades to the empty default; otherwise the inventory rows
(or `[]`) plus `user?.last_* || 0` cooldowns and empty `pickChoices`. -/
def getUserData (outcome : LoadOutcome) : Session :=
  match outcome with
  | .threw =>
    { inventory := [], lastDraw := 0, lastPack := 0, lastPick := 0,
      pickChoices := [] }
  | .completed user inv =>
    { inventory := inv.getD []
      lastDraw := orFalsyInt (user.map (·.last_draw)) 0
      lastPack := orFalsyInt (user.map (·.last_pack)) 0
      lastPick := orFalsyInt (user.map (·.last_pick)) 0
      pickChoices := [] }

/-- Process-wide image-cache state: the per-URL decoded-image cache, the
ordered-triple composite cache, and a fetch counter instrumenting how many
network requests have been issued. -/
structure ImgState where
  imageCache : List (String × String)
  combinedCache : List (String × String)
  fetchCount : Nat
deriving DecidableEq, Repr

/-- Fetcher `fetchAndCacheImage`: return the cached decode for `url` if present,
otherwise perform one network fetch (`net`) and cache the decoded result
under the exact URL.  A failed fetch still counts as an issued request. -/
def fetchAndCacheImage (net : String → Option String) (url : String)
    (s : ImgState) : Option String × ImgState :=
  match s.imageCache.lookup url with
  | some img => (some img, s)
  | none =>
    match net url with
    | some img =>
      (some img,
        { s with imageCache := (url, img) :: s.imageCache,
                 fetchCount := s.fetchCount + 1 })
    | none => (none, { s with fetchCount := s.fetchCount + 1 })

/-- Compositor `combineCardImages`: look up the ordered triple key `u1|u2|u3` in the
composite cache; on a miss fetch the three URLs (each cache-accelerated),
render them side by side (`render` stands for the canvas draw + PNG
encode), cache the encoded bytes under the triple key and return them; any
fetch failure makes the whole composite fail (`none`, the caught-error
`null`). -/
def combineCardImages (net : String → Option String)
    (render : String → String → String → String)
    (u1 u2 u3 : String) (s : ImgState) : Option String × ImgState :=
  let cacheKey := u1 ++ "|" ++ u2 ++ "|" ++ u3
  match s.combinedCache.lookup cacheKey with
  | some buf => (some buf, s)
  | none =>
    let p1 := fetchAndCacheImage net u1 s
    let p2 := fetchAndCacheImage net u2 p1.2
    let p3 := fetchAndCacheImage net u3 p2.2
    match p1.1, p2.1, p3.1 with
    | some i1, some i2, some i3 =>
      let buffer := render i1 i2 i3
      (some buffer,
        { p3.2 with combinedCache := (cacheKey, buffer) :: p3.2.combinedCache })
    | _, _, _ => (none, p3.2)

/-- Concrete card fixture for closed instantiations. -/
def cardA : Card :=
  { id := "onix-b2-84", name := "Onix", rarity := "common",
    set := "Base Set 2", imageUrl := "https://cdn/onix.png" }

/-- Concrete snake_case inventory entry fixture. -/
def entryA : Entry :=
  { card_id := some "onix-b2-84", cardId := none, obtained_at := some 100,
    obtainedAt := none, instance_id := some "po1a2b", instanceId := none }

/-- Sender session fixture: owns exactly `entryA`. -/
def sessionS : Session :=
  { inventory := [entryA], lastDraw := 0, lastPack := 0, lastPick := 0,
    pickChoices := [] }

/-- Receiver session fixture: empty inventory. -/
def sessionR : Session :=
  { inventory := [], lastDraw := 0, lastPack := 0, lastPick := 0,
    pickChoices := [] }

/-- Session fixture with an active pick: three pending choices. -/
def sessionP : Session :=
  { inventory := [], lastDraw := 0, lastPack := 0, lastPick := 0,
    pickChoices := [cardA, cardA, cardA] }

/-- Deterministic network fixture: every URL decodes successfully. -/
def netFix : String → Option String := fun u => some ("img:" ++ u)

/-- Rendering fixture standing for the canvas composition + PNG encode. -/
def renderFix : String → String → String → String :=
  fun a b c => a ++ "+" ++ b ++ "+" ++ c

/-- Splitting lemma: `removeFirstByInstanceId` either reports no match and then no entry
bears the target id, or splices out a first matching entry, dropping the
length and the target count each by one. -/
theorem removeFirst_spec (inv : List Entry) (t : String) :
    (removeFirstByInstanceId inv t = none ∧ countByInstanceId inv t = 0)
    ∨ (∃ e rest, removeFirstByInstanceId inv t = some (e, rest)
        ∧ (entryInstanceId e == some t) = true
        ∧ inv.length = rest.length + 1
        ∧ countByInstanceId inv t = countByInstanceId rest t + 1) := by
  induction inv with
  | nil => left; exact ⟨rfl, rfl⟩
  | cons e rest ih =>
    cases hb : (entryInstanceId e == some t) with
    | true =>
      right
      refine ⟨e, rest, ?_, hb, rfl, ?_⟩
      · simp [removeFirstByInstanceId, hb]
      · simp [countByInstanceId, List.filter_cons, hb]
    | false =>
      rcases ih with ⟨hn, hc⟩ | ⟨r, l, hr, hm, hl, hcnt⟩
      · left
        constructor
        · simp [removeFirstByInstanceId, hb, hn]
        · simp only [countByInstanceId, List.filter_cons, hb] at hc ⊢
          simpa using hc
      · right
        refine ⟨r, e :: l, ?_, hm, ?_, ?_⟩
        · simp [removeFirstByInstanceId, hb, hr]
        · simp [hl]
        · simp only [countByInstanceId, List.filter_cons, hb] at hcnt ⊢
          simpa using hcnt

/-- Counting entries by instance id distributes over append. -/
theorem countByInstanceId_append (inv1 inv2 : List Entry) (t : String) :
    countByInstanceId (inv1 ++ inv2) t
      = countByInstanceId inv1 t + countByInstanceId inv2 t := by
  simp [countByInstanceId, List.filter_append]

/-- C1: on trade accept by the receiver, if the offered instance id is
absent from the sender's inventory the trade aborts with both sessions
unchanged; if the sender holds exactly one matching entry and the receiver
none (ids issued by the generator are never empty), the sender's inventory
shrinks by one, the receiver's grows by one, and the number of entries
bearing the traded id across both sessions is one before and after. -/
theorem trade_accept_conservation (senderId receiverId instanceId : String)
    (sD rD : Session) (now : Int)
    (h1 : countByInstanceId sD.inventory instanceId = 1)
    (h0 : countByInstanceId rD.inventory instanceId = 0)
    (hne : instanceId ≠ "") :
    (∀ sD2 : Session, countByInstanceId sD2.inventory instanceId = 0 →
      tradeResolve .accept senderId receiverId instanceId receiverId sD2 rD now
        = (.aborted, sD2, rD))
    ∧ (tradeResolve .accept senderId receiverId instanceId receiverId sD rD now).1
        = .completed
    ∧ (tradeResolve .accept senderId receiverId instanceId receiverId sD rD
        now).2.1.inventory.length + 1 = sD.inventory.length
    ∧ (tradeResolve .accept senderId receiverId instanceId receiverId sD rD
        now).2.2.inventory.length = rD.inventory.length + 1
    ∧ countByInstanceId sD.inventory instanceId
        + countByInstanceId rD.inventory instanceId = 1
    ∧ countByInstanceId (tradeResolve .accept senderId receiverId instanceId
          receiverId sD rD now).2.1.inventory instanceId
        + countByInstanceId (tradeResolve .accept senderId receiverId instanceId
          receiverId sD rD now).2.2.inventory instanceId = 1 := by
  constructor
  · intro sD2 hc
    rcases removeFirst_spec sD2.inventory instanceId with ⟨hn, _⟩ | ⟨e, l, _, _, _, hcnt⟩
    · simp [tradeResolve, hn]
    · omega
  rcases removeFirst_spec sD.inventory instanceId with ⟨_, hc⟩ | ⟨e, l, hr, hm, hl, hcnt⟩
  · omega
  have hres : tradeResolve .accept senderId receiverId instanceId receiverId sD rD now
      = (.completed, { sD with inventory := l },
         { rD with inventory := rD.inventory ++
            [{ card_id := entryCardId e, cardId := entryCardId e,
               obtained_at := some now, obtainedAt := some now,
               instance_id := some instanceId, instanceId := none }] }) := by
    simp [tradeResolve, hr]
  rw [hres]
  have hcl : countByInstanceId l instanceId = 0 := by omega
  have hnew : countByInstanceId
      [{ card_id := entryCardId e, cardId := entryCardId e,
         obtained_at := some now, obtainedAt := some now,
         instance_id := some instanceId, instanceId := none }] instanceId = 1 := by
    simp [countByInstanceId, List.filter_cons, entryInstanceId, orFalsyStr, hne]
  refine ⟨rfl, by simpa using hl.symm, by simp, by omega, ?_⟩
  have hsum : countByInstanceId l instanceId
      + countByInstanceId (rD.inventory ++
        [{ card_id := entryCardId e, cardId := entryCardId e,
           obtained_at := some now, obtainedAt := some now,
           instance_id := some instanceId, instanceId := none }]) instanceId = 1 := by
    rw [countByInstanceId_append]
    omega
  simpa using hsum

/-- C5: any presser other than the designated receiver — the sender
included — is turned away and neither session is mutated. -/
theorem trade_wrong_actor (action : TradeAction)
    (senderId receiverId instanceId actorId : String)
    (sD rD : Session) (now : Int) (h : actorId ≠ receiverId) :
    tradeResolve action senderId receiverId instanceId actorId sD rD now
      = (.notForYou, sD, rD) := by
  simp [tradeResolve, h]

/-- C9: the entry pushed onto the receiver's inventory carries the removed
entry's card id and the traded instance id, but its `obtained_at` is the
acceptance time `now`, not the sender's original acquisition timestamp. -/
theorem trade_receiver_entry (senderId receiverId instanceId : String)
    (sD rD : Session) (now : Int) (e : Entry) (rest : List Entry)
    (hfound : removeFirstByInstanceId sD.inventory instanceId = some (e, rest)) :
    (tradeResolve .accept senderId receiverId instanceId receiverId sD rD
        now).2.2.inventory
      = rD.inventory ++
        [{ card_id := entryCardId e, cardId := entryCardId e,
           obtained_at := some now, obtainedAt := some now,
           instance_id := some instanceId, instanceId := none }]
    ∧ (e.obtained_at ≠ some now →
        ({ card_id := entryCardId e, cardId := entryCardId e,
           obtained_at := some now, obtainedAt := some now,
           instance_id := some instanceId, instanceId := none } : Entry).obtained_at
          ≠ e.obtained_at) := by
  constructor
  · simp [tradeResolve, hfound]
  · intro hdiff
    simpa using fun hcc => hdiff hcc.symm

/-- C3: resolving an active pick with an in-bounds slot appends exactly
one new instance and clears `pickChoices`; a second resolution against the
resulting state fails with the no-active-session condition and appends
nothing, so across both attempts the inventory gains exactly one item. -/
theorem pick_resolve_then_exhausted (s : Session) (idx : Nat) (now : Int)
    (iid : String) (idx2 : Nat) (now2 : Int) (iid2 : String)
    (hne : s.pickChoices ≠ []) (hidx : idx < s.pickChoices.length) :
    (∃ c, (btnPick s idx now iid).1 = .picked c)
    ∧ (∃ newE, (btnPick s idx now iid).2.inventory = s.inventory ++ [newE])
    ∧ (btnPick s idx now iid).2.inventory.length = s.inventory.length + 1
    ∧ (btnPick s idx now iid).2.pickChoices = []
    ∧ btnPick (btnPick s idx now iid).2 idx2 now2 iid2
        = (.noActiveSession, (btnPick s idx now iid).2)
    ∧ (btnPick (btnPick s idx now iid).2 idx2 now2 iid2).2.inventory.length
        = s.inventory.length + 1 := by
  have hlen : ¬s.pickChoices.length = 0 := by
    simpa [List.length_eq_zero] using hne
  have hcard : s.pickChoices[idx]? = some s.pickChoices[idx] :=
    List.getElem?_eq_getElem hidx
  refine ⟨⟨s.pickChoices[idx], ?_⟩,
         ⟨{ card_id := none, cardId := some (s.pickChoices[idx]).id,
            obtained_at := none, obtainedAt := some now,
            instance_id := some iid, instanceId := none }, ?_⟩,
         ?_, ?_, ?_, ?_⟩ <;>
    simp [btnPick, hlen, hcard]

/-- C10: pressing an out-of-bounds slot while a pick is active is an
invalid choice that mutates nothing — the session stays active and a valid
slot still resolves it. -/
theorem pick_invalid_slot (s : Session) (idx : Nat) (now : Int) (iid : String)
    (j : Nat) (now2 : Int) (iid2 : String)
    (hne : s.pickChoices ≠ []) (hoob : s.pickChoices.length ≤ idx)
    (hj : j < s.pickChoices.length) :
    btnPick s idx now iid = (.invalidChoice, s)
    ∧ (∃ c, btnPick s j now2 iid2
        = (.picked c, { s with
            inventory := s.inventory ++
              [{ card_id := none, cardId := some c.id, obtained_at := none,
                 obtainedAt := some now2, instance_id := some iid2,
                 instanceId := none }],
            pickChoices := [] })) := by
  have hlen : ¬s.pickChoices.length = 0 := by
    simpa [List.length_eq_zero] using hne
  have hnone : s.pickChoices[idx]? = none := by
    simpa [List.getElem?_eq_none_iff] using hoob
  have hcard : s.pickChoices[j]? = some s.pickChoices[j] :=
    List.getElem?_eq_getElem hj
  constructor
  · simp [btnPick, hlen, hnone]
  · exact ⟨s.pickChoices[j], by simp [btnPick, hlen, hcard]⟩

/-- C4: the trash command fails (inventory untouched, no durable delete)
exactly when the index is outside `[0, length)`; on success it removes the
entry at that position and keys the durable delete on the removed entry's
`(userId, cardId, obtainedAt)`, with no instance id in the key. -/
theorem trash_spec (s : Session) (idx : Int) (uid : String) (e : Entry)
    (hget : s.inventory[idx.toNat]? = some e) (hpos : 0 ≤ idx) :
    trash s idx uid
      = (.trashed e, { s with inventory := s.inventory.eraseIdx idx.toNat },
         some (uid, e.cardId, e.obtainedAt))
    ∧ (∀ (s2 : Session) (idx2 : Int),
        ((trash s2 idx2 uid).1 = TrashOutcome.invalidIndex
          ↔ idx2 < 0 ∨ (s2.inventory.length : Int) ≤ idx2))
    ∧ (∀ (s2 : Session) (idx2 : Int),
        (idx2 < 0 ∨ (s2.inventory.length : Int) ≤ idx2) →
          trash s2 idx2 uid = (.invalidIndex, s2, none)) := by
  have hlt : idx.toNat < s.inventory.length := by
    have := List.getElem?_eq_some_iff.mp hget
    exact this.1
  have hcond : ¬(idx < 0 ∨ (s.inventory.length : Int) ≤ idx) := by omega
  refine ⟨?_, ?_, ?_⟩
  · rw [trash, dif_neg hcond]
    have hgete : s.inventory[idx.toNat] = e := by
      have h2 := hget
      rw [List.getElem?_eq_getElem hlt] at h2
      injection h2
    simp [List.get_eq_getElem, hgete]
  · intro s2 idx2
    by_cases h2 : idx2 < 0 ∨ (s2.inventory.length : Int) ≤ idx2
    · rw [trash, dif_pos h2]
      simp [h2]
    · rw [trash, dif_neg h2]
      simp [h2]
  · intro s2 idx2 h2
    rw [trash, dif_pos h2]

/-- C6: a thrown durable read degrades to the empty default session, and a
user absent from the durable store gets epoch-zero cooldowns, an empty
pick state, and the loaded inventory rows (empty when the rows read
returned nothing). -/
theorem getUserData_defaults :
    getUserData .threw
      = { inventory := [], lastDraw := 0, lastPack := 0, lastPick := 0,
          pickChoices := [] }
    ∧ ∀ inv : Option (List Entry),
        (getUserData (.completed none inv)).lastDraw = 0
        ∧ (getUserData (.completed none inv)).lastPack = 0
        ∧ (getUserData (.completed none inv)).lastPick = 0
        ∧ (getUserData (.completed none inv)).pickChoices = []
        ∧ (getUserData (.completed none inv)).inventory = inv.getD []
        ∧ (getUserData (.completed none none)).inventory = [] := by
  exact ⟨rfl, fun inv => ⟨rfl, rfl, rfl, rfl, rfl, rfl⟩⟩

/-- C7: a second `combineCardImages` call with the identical ordered URL
triple returns exactly the bytes produced by the first call, leaves the
cache state untouched, and issues no further network fetch. -/
theorem combine_cache_hit (net : String → Option String)
    (render : String → String → String → String)
    (u1 u2 u3 : String) (s s1 : ImgState) (b : String)
    (h : combineCardImages net render u1 u2 u3 s = (some b, s1)) :
    combineCardImages net render u1 u2 u3 s1 = (some b, s1)
    ∧ (combineCardImages net render u1 u2 u3 s1).2.fetchCount
        = s1.fetchCount := by
  have hkey : s1.combinedCache.lookup (u1 ++ "|" ++ u2 ++ "|" ++ u3) = some b := by
    simp only [combineCardImages] at h
    cases hk : s.combinedCache.lookup (u1 ++ "|" ++ u2 ++ "|" ++ u3) with
    | some buf =>
      rw [hk] at h
      dsimp only at h
      injection h with h1 h2
      injection h1 with h1
      rw [← h2, hk, h1]
    | none =>
      rw [hk] at h
      dsimp only at h
      rcases hf1 : fetchAndCacheImage net u1 s with ⟨r1, t1⟩
      rw [hf1] at h
      dsimp only at h
      rcases hf2 : fetchAndCacheImage net u2 t1 with ⟨r2, t2⟩
      rw [hf2] at h
      dsimp only at h
      rcases hf3 : fetchAndCacheImage net u3 t2 with ⟨r3, t3⟩
      rw [hf3] at h
      dsimp only at h
      cases r1 with
      | none => simp at h
      | some i1 =>
        cases r2 with
        | none => simp at h
        | some i2 =>
          cases r3 with
          | none => simp at h
          | some i3 =>
            dsimp only at h
            injection h with h1 h2
            injection h1 with h1
            rw [← h2, ← h1]
            simp [List.lookup]
  have hsecond : combineCardImages net render u1 u2 u3 s1 = (some b, s1) := by
    simp only [combineCardImages]
    rw [hkey]
  exact ⟨hsecond, by rw [hsecond]⟩

/-- C2: the cooldown gate denies iff `now - last < cooldown`; the reported
remainder is `cooldown - (now - last)`; the remainder strictly decreases
as `now` increases; and it reaches zero exactly at `now = last + cooldown`,
where the gate stops denying. -/
theorem cooldown_gate_spec (last c now n1 n2 r1 r2 : Int)
    (h12 : n1 < n2)
    (hd1 : cooldownCheck n1 last c = some r1)
    (hd2 : cooldownCheck n2 last c = some r2) :
    ((cooldownCheck now last c).isSome ↔ now - last < c)
    ∧ (∀ r, cooldownCheck now last c = some r → r = c - (now - last))
    ∧ r2 < r1
    ∧ (c - (now - last) = 0 ↔ now = last + c)
    ∧ cooldownCheck (last + c) last c = none := by
  simp only [cooldownCheck] at hd1 hd2 ⊢
  have hn1 : n1 - last < c := by
    by_contra hx
    simp [hx] at hd1
  have hn2 : n2 - last < c := by
    by_contra hx
    simp [hx] at hd2
  rw [if_pos hn1] at hd1
  rw [if_pos hn2] at hd2
  have e1 : c - (n1 - last) = r1 := by injection hd1
  have e2 : c - (n2 - last) = r2 := by injection hd2
  constructor
  · split_ifs with hlt <;> simp [hlt]
  constructor
  · intro r hr
    split_ifs at hr with hlt
    injection hr with e
    omega
  refine ⟨by omega, by omega, by simp⟩

/-- C8: the formatter `msToNice` rounds up to whole seconds — `(ms + 999) / 1000` is the
least `n` with `ms ≤ 1000 * n` — and renders `Xm Ys` when the whole-second
value is at least a minute, `Ys` otherwise. -/
theorem msToNice_spec (ms : Nat) :
    ms ≤ 1000 * ((ms + 999) / 1000)
    ∧ (∀ n, ms ≤ 1000 * n → (ms + 999) / 1000 ≤ n)
    ∧ (60 ≤ (ms + 999) / 1000 →
        msToNice ms =
          toString ((ms + 999) / 1000 / 60) ++ "m "
            ++ toString ((ms + 999) / 1000 % 60) ++ "s")
    ∧ ((ms + 999) / 1000 < 60 →
        msToNice ms = toString ((ms + 999) / 1000) ++ "s") := by
  refine ⟨by omega, fun n hn => by omega, fun h => ?_, fun h => ?_⟩
  · have hpos : 0 < (ms + 999) / 1000 / 60 := by omega
    simp only [msToNice, gt_iff_lt, hpos, if_pos]
  · have hz : (ms + 999) / 1000 / 60 = 0 := by omega
    simp only [msToNice, gt_iff_lt, hz, lt_self_iff_false, if_false]
    have hmod : (ms + 999) / 1000 % 60 = (ms + 999) / 1000 := by omega
    rw [hmod]

/-- Closed instantiation of `cooldown_gate_spec` at `last = 0`,
`cooldown = 5`, denials at 1 and 2. -/
theorem cooldown_gate_spec_witness :
    (1 : Int) < 2 ∧ cooldownCheck 1 0 5 = some 4 ∧ cooldownCheck 2 0 5 = some 3
    ∧ (3 : Int) < 4 :=
  ⟨by decide, by decide, by decide,
    (cooldown_gate_spec 0 5 3 1 2 4 3 (by decide) (by decide) (by decide)).2.2.1⟩

/-- Closed instantiation of `trade_accept_conservation` on the one-card
sender fixture. -/
theorem trade_accept_conservation_witness :
    countByInstanceId sessionS.inventory "po1a2b" = 1
    ∧ countByInstanceId sessionR.inventory "po1a2b" = 0
    ∧ "po1a2b" ≠ ""
    ∧ (tradeResolve .accept "111" "222" "po1a2b" "222" sessionS sessionR 500).1
        = .completed :=
  ⟨by decide, by decide, by decide,
    (trade_accept_conservation "111" "222" "po1a2b" sessionS sessionR 500
      (by decide) (by decide) (by decide)).2.1⟩

/-- Closed instantiation of `trade_wrong_actor`: the sender pressing
accept on their own offer is turned away. -/
theorem trade_wrong_actor_witness :
    "111" ≠ "222"
    ∧ tradeResolve .accept "111" "222" "po1a2b" "111" sessionS sessionR 500
        = (.notForYou, sessionS, sessionR) :=
  ⟨by decide,
    trade_wrong_actor .accept "111" "222" "po1a2b" "111" sessionS sessionR 500
      (by decide)⟩

/-- Closed instantiation of `trade_receiver_entry` on the fixtures. -/
theorem trade_receiver_entry_witness :
    removeFirstByInstanceId sessionS.inventory "po1a2b" = some (entryA, [])
    ∧ (tradeResolve .accept "111" "222" "po1a2b" "222" sessionS sessionR
        500).2.2.inventory
      = sessionR.inventory ++
        [{ card_id := entryCardId entryA, cardId := entryCardId entryA,
           obtained_at := some 500, obtainedAt := some 500,
           instance_id := some "po1a2b", instanceId := none }] :=
  ⟨by decide,
    (trade_receiver_entry "111" "222" "po1a2b" sessionS sessionR 500 entryA []
      (by decide)).1⟩

/-- Closed instantiation of `pick_resolve_then_exhausted` on the
three-choice fixture. -/
theorem pick_resolve_then_exhausted_witness :
    sessionP.pickChoices ≠ [] ∧ 1 < sessionP.pickChoices.length
    ∧ (∃ c, (btnPick sessionP 1 900 "poxyz1").1 = .picked c) :=
  ⟨by decide, by decide,
    (pick_resolve_then_exhausted sessionP 1 900 "poxyz1" 0 901 "poxyz2"
      (by decide) (by decide)).1⟩

/-- Closed instantiation of `pick_invalid_slot` at out-of-bounds slot 7. -/
theorem pick_invalid_slot_witness :
    sessionP.pickChoices ≠ [] ∧ sessionP.pickChoices.length ≤ 7
    ∧ 0 < sessionP.pickChoices.length
    ∧ btnPick sessionP 7 900 "poxyz1" = (.invalidChoice, sessionP) :=
  ⟨by decide, by decide, by decide,
    (pick_invalid_slot sessionP 7 900 "poxyz1" 0 901 "poxyz2"
      (by decide) (by decide) (by decide)).1⟩

/-- Closed instantiation of `trash_spec` at index 0 of the one-card
fixture. -/
theorem trash_spec_witness :
    sessionS.inventory[(0 : Int).toNat]? = some entryA ∧ (0 : Int) ≤ 0
    ∧ trash sessionS 0 "111"
        = (.trashed entryA,
           { sessionS with
              inventory := sessionS.inventory.eraseIdx (0 : Int).toNat },
           some ("111", entryA.cardId, entryA.obtainedAt)) :=
  ⟨by decide, by decide,
    (trash_spec sessionS 0 "111" entryA (by decide) (by decide)).1⟩

/-- Closed instantiation of `combine_cache_hit`: a concrete first call and
the verbatim repeat that hits the composite cache. -/
theorem combine_cache_hit_witness :
    combineCardImages netFix renderFix "a" "b" "c" ⟨[], [], 0⟩
      = (some "img:a+img:b+img:c",
         ⟨[("c", "img:c"), ("b", "img:b"), ("a", "img:a")],
          [("a|b|c", "img:a+img:b+img:c")], 3⟩)
    ∧ combineCardImages netFix renderFix "a" "b" "c"
        ⟨[("c", "img:c"), ("b", "img:b"), ("a", "img:a")],
         [("a|b|c", "img:a+img:b+img:c")], 3⟩
      = (some "img:a+img:b+img:c",
         ⟨[("c", "img:c"), ("b", "img:b"), ("a", "img:a")],
          [("a|b|c", "img:a+img:b+img:c")], 3⟩) :=
  ⟨by decide,
    (combine_cache_hit netFix renderFix "a" "b" "c" ⟨[], [], 0⟩
      ⟨[("c", "img:c"), ("b", "img:b"), ("a", "img:a")],
       [("a|b|c", "img:a+img:b+img:c")], 3⟩
      "img:a+img:b+img:c" (by decide)).1⟩

end PomoGG
